import Mathlib

/-!
Verification of the SHOWROOM event dashboard (src/app.py) against its
natural-language specification.

The development shallowly embeds the parts of `app.py` the claims touch:

* the gift-log merge of `get_and_update_gift_log` (lines 159-185);
* the ranking-endpoint resolution of `get_event_ranking_with_room_id`
  (lines 80-120);
* the event-catalog pagination and filtering of `get_events` (lines 23-72);
* the point-gap computation and selection filter of `main`
  (lines 356-390 and 452);
* the name scope of `main` at line 358, where the identifier `all_events`
  is resolved.

Network responses are modelled as oracles (functions from page numbers to
response values), Python `None` as `Option`, Python `dict`s as association
lists with replace-on-insert, and CPython's stable `list.sort` as a stable
insertion sort.  Failures that CPython raises as exceptions (`TypeError`,
`NameError`) are modelled in `Except`.
-/

/-! ## A stable sort, modelling CPython's `list.sort`

CPython's `list.sort(key=..., reverse=...)` is a stable sort: elements whose
keys compare equal keep their original relative order.  The stable sorted
permutation of a list is unique, so any stable sorting algorithm models it;
we use a stable insertion sort.  `insSorted le e l` places `e` before the
first element `x` of `l` with `le e x = true`; with `le e x` true on ties,
an element inserted from the left of the original list lands before its
equal-key successors, which is exactly stability. -/

def insSorted (le : α → α → Bool) (e : α) : List α → List α
  | [] => [e]
  | x :: xs => if le e x then e :: x :: xs else x :: insSorted le e xs

def sortByB (le : α → α → Bool) : List α → List α
  | [] => []
  | x :: xs => insSorted le x (sortByB le xs)

instance {ε α : Type} [DecidableEq ε] [DecidableEq α] : DecidableEq (Except ε α) :=
  fun a b =>
    match a, b with
    | .error e, .error f =>
      if h : e = f then .isTrue (by rw [h]) else
        .isFalse (by intro hc; cases hc; exact h rfl)
    | .ok x, .ok y =>
      if h : x = y then .isTrue (by rw [h]) else
        .isFalse (by intro hc; cases hc; exact h rfl)
    | .error _, .ok _ => .isFalse (by intro hc; cases hc)
    | .ok _, .error _ => .isFalse (by intro hc; cases hc)

/-! ## Gift log merge (`get_and_update_gift_log`, src/app.py lines 159-185)

A gift-log entry is a JSON object; the code reads the keys `gift_id`,
`created_at` and `num` (each via `.get`, hence possibly absent), and the
entries carry further payload the merge never inspects, modelled by the
field `extra`. -/

structure GiftEntry where
  gift_id : Option Nat
  created_at : Option Int
  num : Option Nat
  extra : Nat
deriving DecidableEq, Repr

/-- Dedup key of an entry: `(log.get('gift_id'), log.get('created_at'), log.get('num'))`
(src/app.py line 172/175). -/
def giftKey (e : GiftEntry) : Option Nat × Option Int × Option Nat :=
  (e.gift_id, e.created_at, e.num)

/-- Sort key of an entry: `x.get('created_at', 0)` (src/app.py line 179). -/
def sortKeyCA (e : GiftEntry) : Int :=
  e.created_at.getD 0

/-- Comparison used by the merge's final sort: descending by `created_at`
with default 0 (`sort(key=..., reverse=True)`, src/app.py line 179);
`giftLe a b` means `a` may come before `b`. -/
def giftLe (a b : GiftEntry) : Bool :=
  sortKeyCA b ≤ sortKeyCA a

/-- Membership of a key in the set `existing_log_set` built at
src/app.py line 172. -/
def hasKey (l : List GiftEntry) (k : Option Nat × Option Int × Option Nat) : Bool :=
  l.any (fun x => giftKey x = k)

/-- Embeds the merge step of `get_and_update_gift_log` (src/app.py lines
166-179): append the entries of the fresh batch whose dedup key is not in
the existing history, then sort the whole history descending by
`created_at`.  The `if new_gift_log:` guard of line 171 only skips building
the key set when the batch is empty; the appended list is the existing one
in that case, so the guard needs no separate case here. -/
def mergeGifts (existing batch : List GiftEntry) : List GiftEntry :=
  sortByB giftLe (existing ++ batch.filter (fun e => !hasKey existing (giftKey e)))

/-- Per-session gift-log store, `st.session_state.gift_log_cache`:
a mapping from room id to that room's accumulated history. -/
def lookupRoom (cache : List (Nat × List GiftEntry)) (roomId : Nat) : Option (List GiftEntry) :=
  (cache.find? (fun p => p.1 = roomId)).map (fun p => p.2)

/-- Replace-on-insert for the session store, modelling assignment to
`st.session_state.gift_log_cache[room_id]`. -/
def storeRoom (cache : List (Nat × List GiftEntry)) (roomId : Nat)
    (h : List GiftEntry) : List (Nat × List GiftEntry) :=
  if cache.any (fun p => p.1 = roomId) then
    cache.map (fun p => if p.1 = roomId then (roomId, h) else p)
  else
    cache ++ [(roomId, h)]

/-- Outcome of the HTTP fetch in `get_and_update_gift_log`: either the
`gift_log` list of the decoded body (possibly `[]` when the key is absent,
line 164), or a `requests.exceptions.RequestException`. -/
def FetchGifts : Type :=
  Except Unit (List GiftEntry)

/-- Embeds `get_and_update_gift_log` (src/app.py lines 159-185) with the
network call abstracted as `fetch`.  On a successful fetch the room's
history entry is initialised to `[]` when missing (lines 166-167), merged
with the batch and re-sorted in place (lines 171-179), and returned (line
181).  On a `RequestException` the handler at lines 183-185 returns
`st.session_state.gift_log_cache.get(room_id, [])` without touching the
store. -/
def getAndUpdateGiftLog (fetch : FetchGifts) (cache : List (Nat × List GiftEntry))
    (roomId : Nat) : List GiftEntry × List (Nat × List GiftEntry) :=
  match fetch with
  | .error _ => ((lookupRoom cache roomId).getD [], cache)
  | .ok batch =>
    let existing := (lookupRoom cache roomId).getD []
    let merged := mergeGifts existing batch
    (merged, storeRoom cache roomId merged)

/-- Invariant: at most one entry per dedup key. -/
def dupFreeKeys (l : List GiftEntry) : Prop :=
  l.Pairwise (fun a b => giftKey a ≠ giftKey b)

/-- Invariant: sorted descending by `created_at` (default 0). -/
def sortedByCreatedDesc (l : List GiftEntry) : Prop :=
  l.Pairwise (fun a b => sortKeyCA b ≤ sortKeyCA a)

instance : DecidablePred dupFreeKeys := by
  intro l
  unfold dupFreeKeys
  infer_instance

instance : DecidablePred sortedByCreatedDesc := by
  intro l
  unfold sortedByCreatedDesc
  infer_instance

/-! ## Point-gap computation (`main`, src/app.py lines 356-390 and 452)

The ranking DataFrame has one row per room of the room map, with columns
ルーム名 (room name), 現在の順位 (current rank) and 現在のポイント (current
points).  A points cell is either a number, Python `None`, or the string
marker 集計中 ("tallying") that line 372 writes into the whole column when
the event has ended but is not yet closed. -/

inductive PVal where
  | num (n : Int)
  | noneV
  | tallying
deriving DecidableEq, Repr

/-- A cell of a gap column: the float `NaN` that `Series.diff` leaves at the
ends, a number, or the string `'N/A'` written by the masking at src/app.py
lines 387-388. -/
inductive GVal where
  | nan
  | num (n : Int)
  | na
deriving DecidableEq, Repr

structure Row where
  name : String
  rank : Int
  point : PVal
deriving DecidableEq, Repr

/-- A row after the gap step.  `upper`/`lower` are `none` when the gap
columns were never added (the code only computes them when more than one
room is selected, src/app.py line 377). -/
structure GRow where
  name : String
  rank : Int
  point : PVal
  upper : Option GVal
  lower : Option GVal
deriving DecidableEq, Repr

/-- Comparison for `df.sort_values(by='現在の順位', ascending=True)`
(src/app.py lines 369 and 379). -/
def rowLe (a b : Row) : Bool :=
  a.rank ≤ b.rank

def sortRowsByRank (rows : List Row) : List Row :=
  sortByB rowLe rows

/-- Values of the points column when every cell is numeric; `none` as soon
as one cell is non-numeric, in which case pandas' elementwise subtraction
inside `Series.diff` raises `TypeError` (e.g. `str - str` for the 集計中
marker, `None - int` for a missing point). -/
def allNumPoints : List Row → Option (List Int)
  | [] => some []
  | r :: rs =>
    match r.point, allNumPoints rs with
    | .num n, some ps => some (n :: ps)
    | _, _ => none

def iabs (n : Int) : Int :=
  if n < 0 then -n else n

/-- Column `上位とのポイント差` before masking:
`df_sorted['現在のポイント'].diff(periods=-1).abs()` (src/app.py line 382).
`diff(periods=-1)` subtracts the NEXT row's value, so cell `i` holds
`|point[i] - point[i+1]|` and the LAST row gets `NaN`. -/
def upperCol : List Int → List GVal
  | [] => []
  | [_] => [.nan]
  | a :: b :: rest => .num (iabs (a - b)) :: upperCol (b :: rest)

def lowerColAux (prev : Int) : List Int → List GVal
  | [] => []
  | b :: rest => .num (iabs (b - prev)) :: lowerColAux b rest

/-- Column `下位とのポイント差` before masking:
`df_sorted['現在のポイント'].diff(periods=1).abs()` (src/app.py line 385).
`diff(periods=1)` subtracts the PREVIOUS row's value, so cell `i` holds
`|point[i] - point[i-1]|` and the FIRST row gets `NaN`. -/
def lowerCol : List Int → List GVal
  | [] => []
  | a :: rest => .nan :: lowerColAux a rest

/-- Maximum of the rank column, `df_sorted['現在の順位'].max()`
(src/app.py line 388); only used on non-empty frames. -/
def maxRankOf (rows : List GRow) : Int :=
  match rows with
  | [] => 0
  | r :: rest => rest.foldl (fun a x => max a x.rank) r.rank

/-- Masking of the gap columns (src/app.py lines 387-388): every row whose
rank is 1 gets `'N/A'` in the upper-gap column, every row whose rank equals
the maximum rank of the frame gets `'N/A'` in the lower-gap column. -/
def maskGaps (rows : List GRow) : List GRow :=
  let m := maxRankOf rows
  rows.map (fun r =>
    { r with upper := if r.rank = 1 then some .na else r.upper,
             lower := if r.rank = m then some .na else r.lower })

def zipGaps : List Row → List GVal → List GVal → List GRow
  | r :: rs, u :: us, l :: ls => ⟨r.name, r.rank, r.point, some u, some l⟩ :: zipGaps rs us ls
  | _, _, _ => []

/-- Errors CPython raises that the dashboard section of `main` does not
catch. -/
inductive PyErr where
  | typeError
  | nameError (n : String)
deriving DecidableEq, Repr

/-- Embeds the gap block of `main` applied to a rank-sorted frame
(src/app.py lines 382-388): the two `diff(...).abs()` columns followed by
the two `'N/A'` maskings.  If any cell of the points column is non-numeric
the elementwise subtraction raises `TypeError`. -/
def computeGaps (rows : List Row) : Except PyErr (List GRow) :=
  match allNumPoints rows with
  | none => .error .typeError
  | some ps => .ok (maskGaps (zipGaps rows (upperCol ps) (lowerCol ps)))

/-- Row map of `pd.DataFrame(room_map).T.reset_index()` (src/app.py line
368): one row per room-map entry, in insertion order. -/
structure RoomV where
  room_id : Option Nat
  rank : Int
  point : PVal
deriving DecidableEq, Repr

def toRows (m : List (String × RoomV)) : List Row :=
  m.map (fun p => ⟨p.1, p.2.rank, p.2.point⟩)

/-- The 集計中 overwrite `df['現在のポイント'] = '集計中'` (src/app.py
line 372), applied when the event has ended but `is_closed` is false. -/
def markTallying (rows : List Row) : List Row :=
  rows.map (fun r => { r with point := PVal.tallying })

/-- A row without gap columns (the `len(selected) <= 1` path never adds
them). -/
def plainRow (r : Row) : GRow :=
  ⟨r.name, r.rank, r.point, none, none⟩

/-- Embeds `main`'s ranking-table pipeline, src/app.py lines 367-390 plus
the selection filter of line 452, with the flags `is_event_ended` and
`is_closed` taken as parameters (their derivation at lines 358-362 reads
the undefined identifier `all_events`; see `dashboardSection` below):
build the frame from the room map, sort by rank (line 369), overwrite the
points column with the 集計中 marker when the event ended without being
closed (lines 371-372), and when more than one room is selected (line 377)
re-sort by rank (line 379) and add the masked gap columns (lines 382-388);
finally keep the rows whose room name is in the selection
(`df[df['ルーム名'].isin(...)]`, line 452). -/
def dashboardTable (m : List (String × RoomV)) (isEventEnded isClosed : Bool)
    (sel : List String) : Except PyErr (List GRow) :=
  let df := sortRowsByRank (toRows m)
  let df := if isEventEnded && !isClosed then markTallying df else df
  if 1 < sel.length then
    match computeGaps (sortRowsByRank df) with
    | .error e => .error e
    | .ok g => .ok (g.filter (fun r => sel.contains r.name))
  else
    .ok ((df.map plainRow).filter (fun r => sel.contains r.name))

/-! ## Ranking resolver (`get_event_ranking_with_room_id`, src/app.py lines 75-120)

A ranking entry is a JSON object.  `hasRoomIdKey` models the key-presence
test `'room_id' in r` (line 103); `room_id` models `r.get('room_id')`
(`none` covers both an absent key and a `null` value, and the key can be
present with a `null` value, so the two fields are independent). -/

structure REntry where
  hasRoomIdKey : Bool
  room_id : Option Nat
  room_name : Option String
  user_name : Option String
  rank : Option Int
  point : Option Int
deriving DecidableEq, Repr

/-- Top-level shape of one ranking page (src/app.py lines 93-99): a dict
with a `ranking` list, a dict with an `event_list` list, a bare list, or
anything else (in which case `ranking_list` stays `None`). -/
inductive RankData where
  | ranking (l : List REntry)
  | eventList (l : List REntry)
  | bareList (l : List REntry)
  | other
deriving Repr

/-- Response of one page request for one candidate endpoint: a decoded
body, a 404, or a `requests.exceptions.RequestException` (covering
transport failures, `raise_for_status` on other error codes, and a
JSON-decode failure, which modern `requests` raises as a
`RequestException` subclass). -/
inductive PageResp where
  | ok (d : RankData)
  | notFound
  | err
deriving Repr

/-- The `ranking_list` extracted from a decoded page (src/app.py lines
93-99); `none` when no known shape matched. -/
def extractRanking : RankData → Option (List REntry)
  | .ranking l => some l
  | .eventList l => some l
  | .bareList l => some l
  | .other => none

/-- Pagination loop body for one candidate (src/app.py lines 86-102):
`for page in range(1, max_pages + 1)`, breaking on 404, on an unrecognized
shape, or on an empty `ranking_list`, extending the accumulator otherwise;
a `RequestException` aborts the candidate, losing its accumulator. -/
def paginateAux (cand : Nat → PageResp) (page fuel : Nat)
    (acc : List REntry) : Except Unit (List REntry) :=
  match fuel with
  | 0 => .ok acc
  | fuel' + 1 =>
    match cand page with
    | .notFound => .ok acc
    | .err => .error ()
    | .ok d =>
      match extractRanking d with
      | none => .ok acc
      | some [] => .ok acc
      | some l => paginateAux cand (page + 1) fuel' (acc ++ l)

def paginate (cand : Nat → PageResp) (maxPages : Nat) : Except Unit (List REntry) :=
  paginateAux cand 1 maxPages []

/-- Acceptance test for a candidate's accumulated entries (src/app.py line
103): `temp_ranking_data and any('room_id' in r for r in temp_ranking_data)`. -/
def acceptCheck (l : List REntry) : Bool :=
  !l.isEmpty && l.any (fun e => e.hasRoomIdKey)

/-- The candidate loop of src/app.py lines 83-107: `all_ranking_data`
after the `for base_url in RANKING_API_CANDIDATES` loop.  An accepted
candidate breaks out of the loop; a rejected or failing candidate leaves
the accumulator empty and the next candidate is tried. -/
def firstAccepted (maxPages : Nat) : List (Nat → PageResp) → List REntry
  | [] => []
  | c :: rest =>
    match paginate c maxPages with
    | .error _ => firstAccepted maxPages rest
    | .ok temp => if acceptCheck temp then temp else firstAccepted maxPages rest

/-- Python truthiness of the value of `.get('room_id')`:
`None` and `0` are falsy. -/
def truthyNat : Option Nat → Bool
  | some n => n ≠ 0
  | none => false

/-- Python truthiness of an optional string: `None` and `''` are falsy. -/
def truthyStr : Option String → Bool
  | some s => s ≠ ""
  | none => false

/-- Models `room_info.get('room_name') or room_info.get('user_name')`
(src/app.py line 113): the `room_name` value when truthy, otherwise the
`user_name` value. -/
def orName (e : REntry) : Option String :=
  if truthyStr e.room_name then e.room_name else e.user_name

/-- The guard `if room_id and room_name:` of src/app.py line 114. -/
def entryUsable (e : REntry) : Bool :=
  truthyNat e.room_id && truthyStr (orName e)

/-- Value stored per room in the room map (src/app.py lines 115-119). -/
structure RMVal where
  room_id : Nat
  rank : Option Int
  point : Option Int
deriving DecidableEq, Repr

/-- Python-dict insert: `room_map[room_name] = {...}` replaces the value
of an existing key in place and appends a new key at the end. -/
def dictInsert (m : List (String × RMVal)) (k : String) (v : RMVal) :
    List (String × RMVal) :=
  if m.any (fun p => p.1 = k) then
    m.map (fun p => if p.1 = k then (k, v) else p)
  else
    m ++ [(k, v)]

/-- The room-map construction loop of src/app.py lines 110-119. -/
def buildRoomMapAux (m : List (String × RMVal)) : List REntry → List (String × RMVal)
  | [] => m
  | e :: rest =>
    buildRoomMapAux
      (if entryUsable e then
        dictInsert m ((orName e).getD "") ⟨e.room_id.getD 0, e.rank, e.point⟩
      else m) rest

def buildRoomMap (entries : List REntry) : List (String × RMVal) :=
  buildRoomMapAux [] entries

/-- Embeds `get_event_ranking_with_room_id` (src/app.py lines 80-120) with
each candidate endpoint abstracted as an oracle from page number to
response: resolve the first accepted candidate's accumulated entries, and
return `None` when no candidate was accepted (line 108-109), otherwise the
room map built from the accepted entries. -/
def getEventRankingWithRoomId (cands : List (Nat → PageResp)) (maxPages : Nat) :
    Option (List (String × RMVal)) :=
  let all := firstAccepted maxPages cands
  if all.isEmpty then none else some (buildRoomMap all)

/-- Modelled from the spec's words, for the refinement comparison of claim
C3: the accumulated entries of the first candidate, in order, whose
pagination completes without error and whose accumulated entries contain
at least one entry carrying a room identifier field; `none` when no
candidate qualifies. -/
def specFirstCandidate (maxPages : Nat) : List (Nat → PageResp) → Option (List REntry)
  | [] => none
  | c :: rest =>
    match paginate c maxPages with
    | .error _ => specFirstCandidate maxPages rest
    | .ok l => if l.any (fun e => e.hasRoomIdKey) then some l else specFirstCandidate maxPages rest

/-! ## Event catalog (`get_events`, src/app.py lines 23-72) -/

/-- Value of a boolean-ish JSON field as seen by the identity tests
`is not False` / `is not True`: the Python singletons `True` and `False`,
an absent key (so `.get` returned `None`), or any other value. -/
inductive PyBVal where
  | pyTrue
  | pyFalse
  | absent
  | otherVal
deriving DecidableEq, Repr

structure SEvent where
  event_name : String
  show_ranking : PyBVal
  is_event_block : PyBVal
deriving DecidableEq, Repr

/-- The filter of src/app.py line 56:
`event.get("show_ranking") is not False and event.get("is_event_block") is not True`. -/
def keepEvent (e : SEvent) : Bool :=
  !(e.show_ranking = PyBVal.pyFalse) && !(e.is_event_block = PyBVal.pyTrue)

/-- Top-level shape of one event-search page (src/app.py lines 42-48):
a dict with an `events` list, a dict with an `event_list` list, a bare
list, or anything else (in which case `page_events` stays `[]`). -/
inductive EvData where
  | events (l : List SEvent)
  | eventList (l : List SEvent)
  | bare (l : List SEvent)
  | other
deriving Repr

/-- Response of one event-search page request: a decoded body, or an
error (`requests.exceptions.RequestException` at line 66 or the JSON
`ValueError` at line 69, both of which break the status's pagination). -/
inductive EvResp where
  | ok (d : EvData)
  | err
deriving Repr

def extractEvents : EvData → List SEvent
  | .events l => l
  | .eventList l => l
  | .bare l => l
  | .other => []

/-- The ended-event rename of src/app.py line 62:
`event['event_name'] = f"＜終了＞ {event['event_name']}"`. -/
def markEnded (e : SEvent) : SEvent :=
  { e with event_name := "＜終了＞ " ++ e.event_name }

/-- Pagination loop for one status (src/app.py lines 32-71): up to 10
pages, breaking on an empty page or on an error, filtering each page and
renaming ended events (`status = 4`) before accumulating. -/
def getEventsStatusAux (fetch : Nat → Nat → EvResp) (status page fuel : Nat) :
    List SEvent :=
  match fuel with
  | 0 => []
  | fuel' + 1 =>
    match fetch status page with
    | .err => []
    | .ok d =>
      let pageEvents := extractEvents d
      if pageEvents.isEmpty then []
      else
        let filtered := pageEvents.filter keepEvent
        let filtered := if status = 4 then filtered.map markEnded else filtered
        filtered ++ getEventsStatusAux fetch status (page + 1) fuel'

/-- Embeds `get_events` (src/app.py lines 23-72) with the network
abstracted as an oracle from `(status, page)` to a response: accumulate
the filtered pages of status 1 (ongoing) and then of status 4 (ended). -/
def getEvents (fetch : Nat → Nat → EvResp) : List SEvent :=
  getEventsStatusAux fetch 1 1 10 ++ getEventsStatusAux fetch 4 1 10

/-! ## Name scope of `main` at src/app.py line 358

Line 358 reads
`event_info_from_all_events = next((e for e in all_events if e['event_id'] == selected_event_id), None)`.
CPython resolves the identifier `all_events` in the generator's enclosing
scopes: the locals of `main` (the names assigned anywhere in `main`'s
body), then the module globals (imports and top-level defs), then the
builtins.  `all_events` is assigned only inside the body of `get_events`
(line 29), where it is a local of that function, so it is bound in none of
these scopes and the lookup raises `NameError`. -/

/-- Module-level names of src/app.py: the ten imported names (lines 1-10)
and the top-level assignments and defs (lines 20, 21, 24, 75, 81, 122,
134, 159, 188, 232, 248). -/
def moduleGlobalNames : List String :=
  ["st", "requests", "pd", "time", "datetime", "px", "pytz",
   "st_autorefresh", "timedelta", "logging",
   "HEADERS", "JST", "get_events", "RANKING_API_CANDIDATES",
   "get_event_ranking_with_room_id", "get_room_event_info", "get_gift_list",
   "get_and_update_gift_log", "get_onlives_rooms", "get_rank_color", "main"]

/-- Local names of `main` (every name the body of `main` assigns,
src/app.py lines 248-530); CPython treats exactly these as locals of
`main`. -/
def mainLocalNames : List String :=
  ["events", "event_options", "selected_event_name", "selected_event_data",
   "event_url", "started_at_dt", "ended_at_dt", "event_period_str",
   "selected_event_key", "selected_event_id", "room_count_text",
   "room_count", "select_top_10", "room_map", "sorted_rooms",
   "room_options", "top_10_rooms", "selected_room_names_temp",
   "submit_button", "event_info_from_all_events", "is_closed",
   "event_end_time_ts", "is_event_ended", "df", "df_sorted", "col1",
   "col2", "df_selected_rooms", "display_cols", "fig_points", "df_gaps",
   "color_map", "fig_upper_gap", "fig_lower_gap", "room_name", "room_id",
   "event_info", "e"]

/-- Resolution of an identifier read inside `main` at line 358 against
the scopes CPython consults (`main`'s locals, then module globals; the
builtins hold no name of this program, in particular not `all_events`):
`NameError` when the name is bound nowhere. -/
def resolveNameInMain (n : String) : Except PyErr Unit :=
  if n ∈ mainLocalNames ++ moduleGlobalNames then .ok () else .error (.nameError n)

/-- Embeds the dashboard branch of `main` from line 358 on: evaluating
line 358 first resolves the identifier `all_events`; only if that
succeeds does execution reach the points/gap pipeline of lines 367-390
and 452 (`dashboardTable`). -/
def dashboardSection (m : List (String × RoomV)) (isEventEnded isClosed : Bool)
    (sel : List String) : Except PyErr (List GRow) :=
  match resolveNameInMain "all_events" with
  | .error e => .error e
  | .ok _ => dashboardTable m isEventEnded isClosed sel

/-! ## Concrete inputs used by witnesses and counterexamples -/

/-- The three-room map of the gap-calculator boundary scenario:
ranks `[1,2,3]` with points `[300,200,150]`. -/
def demoRows3 : List Row :=
  [⟨"A", 1, .num 300⟩, ⟨"B", 2, .num 200⟩, ⟨"C", 3, .num 150⟩]

def demoMap3 : List (String × RoomV) :=
  [("A", ⟨some 10, 1, .num 300⟩), ("B", ⟨some 11, 2, .num 200⟩),
   ("C", ⟨some 12, 3, .num 150⟩)]

def demoMap2 : List (String × RoomV) :=
  [("A", ⟨some 10, 1, .num 300⟩), ("B", ⟨some 11, 2, .num 200⟩)]

def g1 : GiftEntry :=
  ⟨some 7, some 100, some 1, 0⟩

def g2 : GiftEntry :=
  ⟨some 8, some 90, some 2, 0⟩

/-- A candidate endpoint whose every page is a 404. -/
def cand404 : Nat → PageResp :=
  fun _ => PageResp.notFound

/-- A ranking entry that carries no `room_id` key at all. -/
def entryNoId : REntry :=
  ⟨false, none, some "A", none, some 1, some 100⟩

/-- An ongoing event with neither flag set. -/
def ev0 : SEvent :=
  ⟨"ev", .absent, .absent⟩

/-- An event-search oracle: status 1 page 1 yields one plain event, every
other request fails. -/
def evFetch0 : Nat → Nat → EvResp :=
  fun s p => if s = 1 ∧ p = 1 then .ok (.events [ev0]) else .err

/-! ## Lemmas about the stable sort -/

theorem insSorted_perm (le : α → α → Bool) (e : α) (l : List α) :
    (insSorted le e l).Perm (e :: l) := by
  induction l with
  | nil => simp [insSorted]
  | cons x xs ih =>
    simp only [insSorted]
    by_cases h : le e x
    · simp [h]
    · simp only [h, if_neg, Bool.false_eq_true, ite_false]
      exact (ih.cons x).trans (List.Perm.swap e x xs)

theorem sortByB_perm (le : α → α → Bool) (l : List α) :
    (sortByB le l).Perm l := by
  induction l with
  | nil => simp [sortByB]
  | cons x xs ih =>
    exact (insSorted_perm le x (sortByB le xs)).trans (ih.cons x)

theorem mem_sortByB (le : α → α → Bool) (l : List α) (a : α) :
    a ∈ sortByB le l ↔ a ∈ l :=
  (sortByB_perm le l).mem_iff

theorem length_sortByB (le : α → α → Bool) (l : List α) :
    (sortByB le l).length = l.length :=
  (sortByB_perm le l).length_eq

theorem pairwise_insSorted (le : α → α → Bool)
    (htrans : ∀ a b c, le a b = true → le b c = true → le a c = true)
    (htot : ∀ a b, le a b = true ∨ le b a = true) (e : α) (l : List α)
    (h : l.Pairwise (fun a b => le a b = true)) :
    (insSorted le e l).Pairwise (fun a b => le a b = true) := by
  induction l with
  | nil => simp [insSorted]
  | cons x xs ih =>
    obtain ⟨hx, hxs⟩ := List.pairwise_cons.mp h
    simp only [insSorted]
    by_cases hle : le e x
    · simp only [hle, ite_true]
      refine List.pairwise_cons.mpr ⟨?_, h⟩
      intro b hb
      rcases List.mem_cons.mp hb with rfl | hb2
      · exact hle
      · exact htrans e x b hle (hx b hb2)
    · simp only [hle, Bool.false_eq_true, ite_false]
      refine List.pairwise_cons.mpr ⟨?_, ih hxs⟩
      intro b hb
      have hb1 : b ∈ e :: xs := (insSorted_perm le e xs).mem_iff.mp hb
      rcases List.mem_cons.mp hb1 with rfl | hb2
      · rcases htot b x with h1 | h1
        · exact absurd h1 hle
        · exact h1
      · exact hx b hb2

theorem sortByB_pairwise (le : α → α → Bool)
    (htrans : ∀ a b c, le a b = true → le b c = true → le a c = true)
    (htot : ∀ a b, le a b = true ∨ le b a = true) (l : List α) :
    (sortByB le l).Pairwise (fun a b => le a b = true) := by
  induction l with
  | nil => simp [sortByB]
  | cons x xs ih => exact pairwise_insSorted le htrans htot x (sortByB le xs) ih

theorem insSorted_eq_cons (le : α → α → Bool) (e : α) (l : List α)
    (h : ∀ b ∈ l, le e b = true) : insSorted le e l = e :: l := by
  cases l with
  | nil => rfl
  | cons x xs => simp [insSorted, h x (by simp)]

theorem sortByB_eq_self (le : α → α → Bool) (l : List α)
    (h : l.Pairwise (fun a b => le a b = true)) : sortByB le l = l := by
  induction l with
  | nil => rfl
  | cons x xs ih =>
    obtain ⟨hx, hxs⟩ := List.pairwise_cons.mp h
    simp only [sortByB]
    rw [ih hxs, insSorted_eq_cons le x xs hx]

theorem sortByB_idem (le : α → α → Bool)
    (htrans : ∀ a b c, le a b = true → le b c = true → le a c = true)
    (htot : ∀ a b, le a b = true ∨ le b a = true) (l : List α) :
    sortByB le (sortByB le l) = sortByB le l :=
  sortByB_eq_self le _ (sortByB_pairwise le htrans htot l)

theorem giftLe_trans (a b c : GiftEntry) :
    giftLe a b = true → giftLe b c = true → giftLe a c = true := by
  simp only [giftLe, decide_eq_true_eq]
  omega

theorem giftLe_total (a b : GiftEntry) :
    giftLe a b = true ∨ giftLe b a = true := by
  simp only [giftLe, decide_eq_true_eq]
  omega

/-! ## Claims C5, C6, C10: the gift-log merge -/

theorem mergeGifts_perm (existing batch : List GiftEntry) :
    (mergeGifts existing batch).Perm
      (existing ++ batch.filter (fun e => !hasKey existing (giftKey e))) :=
  sortByB_perm giftLe _

/-- Claim C5 (confirmed): `merge_new_gifts` is idempotent — for every
room history and every fresh batch, merging the same batch a second time
leaves the history exactly as it was after the first merge. -/
theorem c5_merge_idempotent (existing batch : List GiftEntry) :
    mergeGifts (mergeGifts existing batch) batch = mergeGifts existing batch := by
  have hmem : ∀ x : GiftEntry,
      x ∈ mergeGifts existing batch ↔
        x ∈ existing ++ batch.filter (fun e => !hasKey existing (giftKey e)) :=
    fun x => (mergeGifts_perm existing batch).mem_iff
  have hkeys : ∀ e ∈ batch, hasKey (mergeGifts existing batch) (giftKey e) = true := by
    intro e he
    by_cases hk : hasKey existing (giftKey e) = true
    · obtain ⟨x, hx, hkx⟩ := List.any_eq_true.mp hk
      exact List.any_eq_true.mpr
        ⟨x, (hmem x).mpr (List.mem_append_left _ hx), hkx⟩
    · refine List.any_eq_true.mpr ⟨e, ?_, by simp⟩
      refine (hmem e).mpr (List.mem_append_right _ ?_)
      refine List.mem_filter.mpr ⟨he, ?_⟩
      simp only [Bool.not_eq_true] at hk
      simp [hk]
  have hfil : batch.filter
      (fun e => !hasKey (mergeGifts existing batch) (giftKey e)) = [] := by
    rw [List.filter_eq_nil_iff]
    intro a ha
    simp [hkeys a ha]
  have houter : mergeGifts (mergeGifts existing batch) batch =
      sortByB giftLe (mergeGifts existing batch ++
        batch.filter (fun e => !hasKey (mergeGifts existing batch) (giftKey e))) := rfl
  rw [houter, hfil, List.append_nil]
  exact sortByB_eq_self giftLe (mergeGifts existing batch)
    (sortByB_pairwise giftLe giftLe_trans giftLe_total _)

/-- Claim C6 counterexample: a single call to the merge can produce two
history entries with the same dedup key.  The fresh batch `[g1, g1]`
carries the same key twice; the merge only filters fresh entries against
the keys of the EXISTING history (src/app.py lines 172-177), so both
copies are appended, violating the at-most-one-entry-per-key invariant
even though the existing history (empty) satisfied it. -/
theorem c6_invariant_cex :
    dupFreeKeys ([] : List GiftEntry) ∧
      mergeGifts [] [g1, g1] = [g1, g1] ∧ ¬ dupFreeKeys (mergeGifts [] [g1, g1]) := by
  refine ⟨by decide, by decide, by decide⟩

/-- Claim C6 (corrected): provided the fresh batch itself carries no two
entries with the same dedup key, the merge preserves the
`RoomGiftHistory` invariant — the result has at most one entry per dedup
key, is sorted descending by `created_at`, never shrinks, and never drops
an existing entry. -/
theorem c6_invariant_amended (existing batch : List GiftEntry)
    (hex : dupFreeKeys existing) (hb : dupFreeKeys batch) :
    dupFreeKeys (mergeGifts existing batch) ∧
      sortedByCreatedDesc (mergeGifts existing batch) ∧
      existing.length ≤ (mergeGifts existing batch).length ∧
      ∀ x ∈ existing, x ∈ mergeGifts existing batch := by
  have hperm := mergeGifts_perm existing batch
  have hsymm : ∀ {x y : GiftEntry},
      giftKey x ≠ giftKey y → giftKey y ≠ giftKey x := fun h => Ne.symm h
  refine ⟨?_, ?_, ?_, ?_⟩
  · unfold dupFreeKeys
    rw [List.Perm.pairwise_iff hsymm hperm]
    rw [List.pairwise_append]
    refine ⟨hex, List.Pairwise.sublist (List.filter_sublist _) hb, ?_⟩
    intro a ha b hbf
    have hpb := (List.mem_filter.mp hbf).2
    simp only [Bool.not_eq_true'] at hpb
    have := List.any_eq_false.mp hpb
    intro hcontra
    exact this a ha (decide_eq_true hcontra)
  · unfold sortedByCreatedDesc
    have := sortByB_pairwise giftLe giftLe_trans giftLe_total
      (existing ++ batch.filter (fun e => !hasKey existing (giftKey e)))
    refine this.imp ?_
    intro a b hab
    exact of_decide_eq_true hab
  · have := hperm.length_eq
    rw [this, List.length_append]
    omega
  · intro x hx
    exact hperm.mem_iff.mpr (List.mem_append_left _ hx)

/-- Witness for C6's amended theorem at a concrete input. -/
theorem c6_invariant_amended_witness :
    dupFreeKeys [g1] ∧ dupFreeKeys [g2] ∧
      (dupFreeKeys (mergeGifts [g1] [g2]) ∧
        sortedByCreatedDesc (mergeGifts [g1] [g2]) ∧
        [g1].length ≤ (mergeGifts [g1] [g2]).length ∧
        ∀ x ∈ [g1], x ∈ mergeGifts [g1] [g2]) :=
  ⟨by decide, by decide, c6_invariant_amended [g1] [g2] (by decide) (by decide)⟩

/-- Claim C10 (confirmed): when the gift-log fetch fails with a transport
error, `get_and_update_gift_log` leaves the per-room store untouched and
returns the previously accumulated history, or the empty sequence when
the room has none. -/
theorem c10_error_path_preserves_history (cache : List (Nat × List GiftEntry))
    (roomId : Nat) :
    (getAndUpdateGiftLog (Except.error ()) cache roomId).2 = cache ∧
      (getAndUpdateGiftLog (Except.error ()) cache roomId).1 =
        (lookupRoom cache roomId).getD [] :=
  ⟨rfl, rfl⟩

/-! ## Claims C1, C2, C8, C9: the dashboard pipeline -/

theorem rowLe_trans (a b c : Row) :
    rowLe a b = true → rowLe b c = true → rowLe a c = true := by
  simp only [rowLe, decide_eq_true_eq]
  omega

theorem rowLe_total (a b : Row) : rowLe a b = true ∨ rowLe b a = true := by
  simp only [rowLe, decide_eq_true_eq]
  omega

theorem sortRowsByRank_idem (l : List Row) :
    sortRowsByRank (sortRowsByRank l) = sortRowsByRank l :=
  sortByB_idem rowLe rowLe_trans rowLe_total l

/-- Claim C1 (code_bug): evaluation of the gap block at the boundary
scenario, ranks `[1,2,3]` with points `[300,200,150]`.  The claim's
not-applicable parts hold (rank 1 gets `'N/A'` in the upper-gap column,
rank 3 gets `'N/A'` in the lower-gap column), but the numeric gaps of the
rank-2 row come out SWAPPED: the code computes the 上位 (upper) column
with `diff(periods=-1)`, which pairs each row with the next-WORSE rank,
and the 下位 (lower) column with `diff(periods=1)`, which pairs each row
with the next-BETTER rank.  So rank 2's upper gap is 50 (not 100 as the
claim states) and its lower gap is 100 (not 50).  The column labels and
the `'N/A'` masking of lines 387-388 show the intent matches the claim;
the `diff` directions at lines 382 and 385 are the slip. -/
theorem c1_gap_direction :
    computeGaps demoRows3 = .ok
      [⟨"A", 1, .num 300, some .na, some .nan⟩,
       ⟨"B", 2, .num 200, some (.num 50), some (.num 100)⟩,
       ⟨"C", 3, .num 150, some .nan, some .na⟩] := by
  decide

/-- Claim C2 counterexample: with the three-room map
`A(rank 1, 300), B(rank 2, 200), C(rank 3, 150)` and the selection
`["A","B"]`, row `B` holds the worst rank IN THE SELECTION, so the claim
requires its lower gap to be not-applicable; the code instead gives it
the numeric value 100 (and an upper gap of 50 taken against the
unselected room `C`), because the gap columns are computed over the full
room map at src/app.py lines 379-388 and the selection filter of line
452 only runs afterwards. -/
theorem c2_selection_scope_cex :
    dashboardTable demoMap3 false false ["A", "B"] = .ok
        [⟨"A", 1, .num 300, some .na, some .nan⟩,
         ⟨"B", 2, .num 200, some (.num 50), some (.num 100)⟩] ∧
      GVal.num 100 ≠ GVal.na :=
  ⟨by decide, by decide⟩

/-- Claim C2 (corrected): the gap columns are computed over ALL rows of
the event's room map, and the user's selection is applied only afterwards
as a row filter — every output row is a row of the full-map gap table,
so a selected row's gaps and `'N/A'` markers refer to rank-adjacency in
the whole map, not the selection. -/
theorem c2_gaps_full_map (m : List (String × RoomV)) (c : Bool)
    (sel : List String) (hsel : 1 < sel.length) :
    dashboardTable m false c sel =
      (computeGaps (sortRowsByRank (toRows m))).map
        (fun g => g.filter (fun r => sel.contains r.name)) := by
  unfold dashboardTable
  simp only [Bool.false_and, Bool.false_eq_true, if_false, if_pos hsel,
    sortRowsByRank_idem]
  cases h : computeGaps (sortRowsByRank (toRows m)) with
  | error e => simp [Except.map]
  | ok g => simp [Except.map]

/-- Witness for C2's amended theorem at a concrete input. -/
theorem c2_gaps_full_map_witness :
    1 < (["A", "B"] : List String).length ∧
      dashboardTable demoMap3 false false ["A", "B"] =
        (computeGaps (sortRowsByRank (toRows demoMap3))).map
          (fun g => g.filter (fun r => (["A", "B"] : List String).contains r.name)) :=
  ⟨by decide, c2_gaps_full_map demoMap3 false ["A", "B"] (by decide)⟩

/-- Claim C8 (code_bug): when the event has ended but is not yet closed,
line 372 overwrites EVERY cell of the points column with the 集計中
marker string, and with more than one room selected the gap block of
lines 379-388 still runs: `Series.diff` then subtracts strings and raises
an uncaught `TypeError` instead of short-circuiting gap computation and
signalling the tallying state (the tallying message of lines 454-462 is
only reached when the gap block did not run or did not crash). -/
theorem c8_tallying_no_short_circuit :
    dashboardTable demoMap2 true false ["A", "B"] = .error PyErr.typeError := by
  decide

/-- Claim C9 (code_bug): the dashboard branch of `main` always raises an
uncaught `NameError` for every room map, every flag combination and
every selection: line 358 reads the identifier `all_events`, which is
bound neither in `main`'s locals (the fetched list is bound to `events`,
line 266) nor at module scope, so no dashboard refresh cycle survives to
the points/gap pipeline — contradicting the claim that no reachable
state raises an unhandled exception. -/
theorem c9_dashboard_name_error (m : List (String × RoomV))
    (isEventEnded isClosed : Bool) (sel : List String) :
    dashboardSection m isEventEnded isClosed sel =
      .error (PyErr.nameError "all_events") := by
  unfold dashboardSection
  have h : resolveNameInMain "all_events" = .error (.nameError "all_events") := by
    decide
  rw [h]

/-! ## Claims C3 and C4: the ranking resolver -/

/-- Claim C3 (confirmed): for every ordered list of candidate endpoints
and every page budget, `get_event_ranking_with_room_id` returns exactly
the room map built from the accumulated entries of the FIRST candidate
whose pagination completes and contains at least one entry with a
`room_id` key, and `None` when no candidate qualifies; the result never
depends on candidates after the accepted one, and a candidate whose
entries all lack the identifier is passed over in favour of the next. -/
theorem c3_first_accepted_candidate (maxPages : Nat)
    (cands : List (Nat → PageResp)) :
    getEventRankingWithRoomId cands maxPages =
      (specFirstCandidate maxPages cands).map buildRoomMap := by
  induction cands with
  | nil => rfl
  | cons c rest ih =>
    cases hp : paginate c maxPages with
    | error e =>
      simp only [getEventRankingWithRoomId, firstAccepted, specFirstCandidate, hp]
      simpa [getEventRankingWithRoomId] using ih
    | ok t =>
      by_cases ha : t.any (fun e => e.hasRoomIdKey) = true
      · have hne : t.isEmpty = false := by
          obtain ⟨x, hx, _⟩ := List.any_eq_true.mp ha
          cases t with
          | nil => cases hx
          | cons y ys => rfl
        have hacc : acceptCheck t = true := by
          simp [acceptCheck, hne, ha]
        simp [getEventRankingWithRoomId, firstAccepted, specFirstCandidate,
          hp, hacc, ha, hne]
      · have hacc : acceptCheck t = false := by
          simp only [Bool.not_eq_true] at ha
          simp [acceptCheck, ha]
        simp only [getEventRankingWithRoomId, firstAccepted, specFirstCandidate,
          hp, hacc, Bool.false_eq_true, if_false, ha]
        simpa [getEventRankingWithRoomId] using ih

theorem firstAccepted_nil_of_no_id (maxPages : Nat)
    (cands : List (Nat → PageResp))
    (h : ∀ c ∈ cands, ∀ l, paginate c maxPages = .ok l →
        ∀ e ∈ l, e.hasRoomIdKey = false) :
    firstAccepted maxPages cands = [] := by
  induction cands with
  | nil => rfl
  | cons c rest ih =>
    have hrest : ∀ c' ∈ rest, ∀ l, paginate c' maxPages = .ok l →
        ∀ e ∈ l, e.hasRoomIdKey = false :=
      fun c' hc' => h c' (List.mem_cons_of_mem c hc')
    cases hp : paginate c maxPages with
    | error e =>
      simp only [firstAccepted, hp]
      exact ih hrest
    | ok t =>
      have hall := h c (List.mem_cons_self c rest) t hp
      have hany : t.any (fun e => e.hasRoomIdKey) = false := by
        rw [List.any_eq_false]
        intro x hx
        simp [hall x hx]
      have hacc : acceptCheck t = false := by
        simp [acceptCheck, hany]
      simp only [firstAccepted, hp, hacc, Bool.false_eq_true, if_false]
      exact ih hrest

theorem buildRoomMapAux_filter (es : List REntry) :
    ∀ m, buildRoomMapAux m es = buildRoomMapAux m (es.filter entryUsable) := by
  induction es with
  | nil => intro m; rfl
  | cons e rest ih =>
    intro m
    by_cases hu : entryUsable e = true
    · simp only [buildRoomMapAux, List.filter_cons, hu, if_true]
      exact ih _
    · simp only [Bool.not_eq_true] at hu
      simp only [buildRoomMapAux, List.filter_cons, hu, Bool.false_eq_true, if_false]
      exact ih m

/-- Claim C4 (confirmed): when no candidate's completed pagination yields
any entry carrying a `room_id` key, the resolver returns `None` (never an
empty map); and the room-map construction skips every entry that fails
the `if room_id and room_name:` usability guard, so entries missing the
identifier or the display name contribute nothing. -/
theorem c4_absent_and_skip :
    (∀ (maxPages : Nat) (cands : List (Nat → PageResp)),
        (∀ c ∈ cands, ∀ l, paginate c maxPages = .ok l →
            ∀ e ∈ l, e.hasRoomIdKey = false) →
          getEventRankingWithRoomId cands maxPages = none) ∧
      ∀ es : List REntry, buildRoomMap es = buildRoomMap (es.filter entryUsable) := by
  constructor
  · intro maxPages cands h
    unfold getEventRankingWithRoomId
    rw [firstAccepted_nil_of_no_id maxPages cands h]
    rfl
  · intro es
    exact buildRoomMapAux_filter es []

/-- Witness for C4 at concrete inputs: a single candidate endpoint
answering 404 everywhere (so its accumulated entries are empty and carry
no identifier), and a one-entry list whose entry lacks the `room_id`
key. -/
theorem c4_absent_and_skip_witness :
    (∀ c ∈ [cand404], ∀ l, paginate c 10 = .ok l →
        ∀ e ∈ l, e.hasRoomIdKey = false) ∧
      getEventRankingWithRoomId [cand404] 10 = none ∧
      buildRoomMap [entryNoId] = buildRoomMap ([entryNoId].filter entryUsable) := by
  have hc : ∀ c ∈ [cand404], ∀ l, paginate c 10 = .ok l →
      ∀ e ∈ l, e.hasRoomIdKey = false := by
    intro c hcm l hl e he
    rcases List.mem_singleton.mp hcm with rfl
    have h0 : paginate cand404 10 = .ok [] := rfl
    rw [h0] at hl
    cases hl
    cases he
  exact ⟨hc, c4_absent_and_skip.1 10 [cand404] hc, c4_absent_and_skip.2 [entryNoId]⟩

/-! ## Claim C7: the event-catalog filter -/

theorem keepEvent_flags (e : SEvent) (h : keepEvent e = true) :
    e.show_ranking ≠ PyBVal.pyFalse ∧ e.is_event_block ≠ PyBVal.pyTrue := by
  unfold keepEvent at h
  constructor
  · intro hc
    simp [hc] at h
  · intro hc
    simp [hc] at h

theorem getEventsStatusAux_flags (fetch : Nat → Nat → EvResp) (status : Nat) :
    ∀ (fuel page : Nat), ∀ e ∈ getEventsStatusAux fetch status page fuel,
      e.show_ranking ≠ PyBVal.pyFalse ∧ e.is_event_block ≠ PyBVal.pyTrue := by
  intro fuel
  induction fuel with
  | zero =>
    intro page e he
    cases he
  | succ f ih =>
    intro page e he
    simp only [getEventsStatusAux] at he
    cases hf : fetch status page with
    | err =>
      rw [hf] at he
      cases he
    | ok d =>
      rw [hf] at he
      by_cases hemp : (extractEvents d).isEmpty = true
      · simp only [hemp, if_true] at he
        cases he
      · simp only [Bool.not_eq_true] at hemp
        simp only [hemp, Bool.false_eq_true, if_false] at he
        rcases List.mem_append.mp he with h1 | h2
        · by_cases hs : status = 4
          · simp only [hs, if_true] at h1
            obtain ⟨x, hx, hxe⟩ := List.mem_map.mp h1
            have hk := (List.mem_filter.mp hx).2
            have hfl := keepEvent_flags x hk
            rw [← hxe]
            exact hfl
          · simp only [hs, if_false] at h1
            exact keepEvent_flags e (List.mem_filter.mp h1).2
        · exact ih (page + 1) e h2

/-- Claim C7 (confirmed): for every event-search oracle, no event with
`show_ranking` identical to `False` and no event with `is_event_block`
identical to `True` appears in the list `get_events` returns, across both
status classes. -/
theorem c7_filtered_events (fetch : Nat → Nat → EvResp) (e : SEvent)
    (he : e ∈ getEvents fetch) :
    e.show_ranking ≠ PyBVal.pyFalse ∧ e.is_event_block ≠ PyBVal.pyTrue := by
  rcases List.mem_append.mp he with h | h
  · exact getEventsStatusAux_flags fetch 1 10 1 e h
  · exact getEventsStatusAux_flags fetch 4 10 1 e h

/-- Witness for C7 at a concrete oracle whose status-1 page 1 yields one
event. -/
theorem c7_filtered_events_witness :
    ev0 ∈ getEvents evFetch0 ∧
      (ev0.show_ranking ≠ PyBVal.pyFalse ∧ ev0.is_event_block ≠ PyBVal.pyTrue) :=
  ⟨by decide, c7_filtered_events evFetch0 ev0 (by decide)⟩
